import Mathlib

/-!
Verification of the packet-mediation engine of the `any-dns` repository.

The development shallowly embeds the Rust sources:
- `src/pending_queries.rs` : `PendingQuery`, `ThreadSafeStore` (Arc-shared map),
  `PendingStore`;
- `src/dns_thread.rs` : `DnsProcessor` (state, `next_id`, `recv_from`, `run`),
  `DnsThread` (`stop`, `join`);
- `src/server.rs` : `AnyDNS` (`next_id`).

Machine integers (`u16`) are modeled as `Nat` with explicit bounds; a `u16`
addition that would overflow in Rust debug mode is modeled as a `Fault`
(Rust panics there).  Datagrams are `List Nat` of byte values (each `< 256`).
Socket addresses are opaque identities modeled as `Nat`.  Sends are modeled
as events emitted by the step function rather than real I/O.

The external DNS codec (`simple_dns`, out of scope for the repository per its
specification) is modeled at the RFC 1035 header level: a packet carries a
16-bit id (serialized big-endian at byte positions 0-1), 16-bit flags at
positions 2-3, and the four section counts at positions 4-11; the individual
questions and resource records are opaque byte blobs, serialized in this
model as length-prefixed chunks.  The byte positions of the header (in
particular the transaction id at bytes 0-1, which is all the engine touches)
are exactly those of the wire format.
-/

/-- Socket addresses are opaque identities; only equality of addresses is used
by the engine (`from == self.icann_resolver`). -/
abbrev Addr : Type := Nat

deriving instance DecidableEq for Except

namespace AnyDns

/-- Model of a parsed `simple_dns::Packet`: the 16-bit header id and flags,
and the four record sections.  Questions and resource records are opaque
byte blobs (their internals are never inspected by the engine). -/
structure Packet where
  id : Nat
  flags : Nat
  questions : List (List Nat)
  answers : List (List Nat)
  nameServers : List (List Nat)
  additionalRecords : List (List Nat)
deriving DecidableEq, Repr

/-- Flags word of `simple_dns::Packet::new_reply`: a fresh reply packet with
the QR (response) bit set and nothing else. -/
def replyFlags : Nat := 32768

/-- Model of `simple_dns::Packet::new_reply(id)`: a fresh reply packet with
the given id, reply flags and empty sections. -/
def Packet.new_reply (id : Nat) : Packet :=
  { id := id, flags := replyFlags, questions := [], answers := [],
    nameServers := [], additionalRecords := [] }

/-- Serialization of one opaque record blob in the codec model:
length-prefixed chunk. -/
def encBlob (b : List Nat) : List Nat := b.length :: b

/-- Read `n` length-prefixed blobs from a byte list, returning the blobs and
the remaining bytes. -/
def readBlobs : Nat → List Nat → Option (List (List Nat) × List Nat)
  | 0, rest => some ([], rest)
  | _ + 1, [] => none
  | n + 1, len :: rest =>
      if len ≤ rest.length then
        (readBlobs n (rest.drop len)).map (fun p => (rest.take len :: p.1, p.2))
      else none

/-- Parse the section bodies after the 12 header bytes. -/
def parseFields (b0 b1 b2 b3 b4 b5 b6 b7 b8 b9 b10 b11 : Nat)
    (body : List Nat) : Option Packet :=
  (readBlobs (b4 * 256 + b5) body).bind (fun q =>
  (readBlobs (b6 * 256 + b7) q.2).bind (fun an =>
  (readBlobs (b8 * 256 + b9) an.2).bind (fun ns =>
  (readBlobs (b10 * 256 + b11) ns.2).map (fun ar =>
    { id := b0 * 256 + b1, flags := b2 * 256 + b3,
      questions := q.1, answers := an.1,
      nameServers := ns.1, additionalRecords := ar.1 }))))

/-- Model of `simple_dns::Packet::parse`: requires a full 12-byte RFC 1035
header; the id is read big-endian from byte positions 0-1.  All byte values
are below 256 (the Rust input is a `&[u8]`). -/
def parsePacket (bytes : List Nat) : Option Packet :=
  if ∀ b ∈ bytes, b < 256 then
    match bytes with
    | b0 :: b1 :: b2 :: b3 :: b4 :: b5 :: b6 :: b7 :: b8 :: b9 :: b10 :: b11 :: body =>
        parseFields b0 b1 b2 b3 b4 b5 b6 b7 b8 b9 b10 b11 body
    | _ => none
  else none

/-- Model of `simple_dns::Packet::build_bytes_vec`: RFC 1035 header (id
big-endian at positions 0-1, flags at 2-3, the four section counts at 4-11)
followed by the serialized sections. -/
def buildBytes (p : Packet) : List Nat :=
  p.id / 256 :: p.id % 256 ::
  p.flags / 256 :: p.flags % 256 ::
  p.questions.length / 256 :: p.questions.length % 256 ::
  p.answers.length / 256 :: p.answers.length % 256 ::
  p.nameServers.length / 256 :: p.nameServers.length % 256 ::
  p.additionalRecords.length / 256 :: p.additionalRecords.length % 256 ::
  ((p.questions.map encBlob).flatten ++ (p.answers.map encBlob).flatten ++
   (p.nameServers.map encBlob).flatten ++ (p.additionalRecords.map encBlob).flatten)

/-- `src/pending_queries.rs` : `PendingQuery`.  Source field names are
`from`, `query`, `received_at`, `icann_id` (`from` is a reserved word in
Lean, hence `fromAddr`; `dns_thread.rs` refers to the same record under the
field names `id`, `query`, `from`, `sent`). -/
structure PendingQuery where
  fromAddr : Addr
  query : List Nat
  received_at : Nat
  icann_id : Nat
deriving DecidableEq, Repr

/-- `HashMap::insert` on the map underlying a pending store: replaces the
value at an existing key, otherwise appends the binding. -/
def mapInsert : List (Nat × PendingQuery) → Nat → PendingQuery →
    List (Nat × PendingQuery)
  | [], k, v => [(k, v)]
  | (k', v') :: rest, k, v =>
      if k' = k then (k, v) :: rest else (k', v') :: mapInsert rest k v

/-- `HashMap::remove`: detach and return the binding at a key, if present. -/
def mapRemove : List (Nat × PendingQuery) → Nat →
    Option PendingQuery × List (Nat × PendingQuery)
  | [], _ => (none, [])
  | (k', v) :: rest, k =>
      if k' = k then (some v, rest)
      else
        let r := mapRemove rest k
        (r.1, (k', v) :: r.2)

/-- `HashMap::get`-style lookup, used to state table membership. -/
def mapLookup : List (Nat × PendingQuery) → Nat → Option PendingQuery
  | [], _ => none
  | (k', v) :: rest, k => if k' = k then some v else mapLookup rest k

/-- The custom handler of `dns_thread.rs`:
`for<'a> fn(&'a Packet<'a>) -> Result<Packet<'a>, String>`.  The source
stores it in the `DnsProcessor` struct; the model passes it as an explicit
argument of the step function to keep the state first-order. -/
def Handler : Type := Packet → Except String Packet

/-- Rust panics reachable in `DnsProcessor::run` and `next_id` (debug-mode
semantics): `Packet::parse(..).unwrap()`, `questions.get(0).unwrap()`,
`self.next_id + 1` overflowing `u16`, and `query[0]`/`query[1]` on a
datagram shorter than 2 bytes. -/
inductive Fault where
  | parseFailed
  | noQuestion
  | idOverflow
  | indexOutOfBounds
deriving DecidableEq, Repr

/-- Observable actions of one processor step: a table insertion and a UDP
`send_to`.  Their order in the emitted list is the program order of the
source. -/
inductive Event where
  | insert (entry : PendingQuery)
  | send (dest : Addr) (payload : List Nat)
deriving DecidableEq, Repr

/-- `src/dns_thread.rs` : the state of `DnsProcessor`.
`pending` is the map underlying `pending_queries` (either store variant
maintains exactly this map); `nextId` and the range bounds are `u16`
values; the `handler` field of the source is passed to `step` explicitly. -/
structure DnsProcessor where
  pending : List (Nat × PendingQuery)
  icann_resolver : Addr
  nextId : Nat
  idRangeStart : Nat
  idRangeEnd : Nat
deriving DecidableEq, Repr

namespace DnsProcessor

/-- `DnsProcessor::new`: simple store, `id_range: 0..u16::MAX` (so
`idRangeEnd = 65535`), cursor 0. -/
def new (icann_resolver : Addr) : DnsProcessor :=
  { pending := [], icann_resolver := icann_resolver,
    nextId := 0, idRangeStart := 0, idRangeEnd := 65535 }

/-- `DnsProcessor::new_threadsafe`: given range, cursor starts at
`id_range.start`. -/
def new_threadsafe (icann_resolver : Addr) (startR endR : Nat) : DnsProcessor :=
  { pending := [], icann_resolver := icann_resolver,
    nextId := startR, idRangeStart := startR, idRangeEnd := endR }

/-- The id value produced by one `next_id` call from the current cursor:
`let mut id = self.next_id + 1; if id > self.id_range.end { id = start }`. -/
def wrapCursor (s : DnsProcessor) : Nat :=
  if s.nextId + 1 > s.idRangeEnd then s.idRangeStart else s.nextId + 1

/-- `DnsProcessor::next_id` (dns_thread.rs lines 81-88).  The increment
`self.next_id + 1` is a `u16` addition: in debug mode it panics when the
cursor is 65535, modeled as `Fault.idOverflow`.  The produced id is stored
back into the cursor and returned. -/
def next_id (s : DnsProcessor) : Except Fault (Nat × DnsProcessor) :=
  if s.nextId + 1 ≥ 65536 then .error .idOverflow
  else
    let id := s.wrapCursor
    .ok (id, { s with nextId := id })

/-- `query[0] = id_bytes[0]; query[1] = id_bytes[1]`: overwrite byte
positions 0-1 with the big-endian id; panics (index out of bounds) when the
datagram has fewer than 2 bytes. -/
def setIdBytes (bytes : List Nat) (id : Nat) : Except Fault (List Nat) :=
  match bytes with
  | _ :: _ :: rest => .ok (id / 256 :: id % 256 :: rest)
  | _ => .error .indexOutOfBounds

/-- One iteration of the body of `DnsProcessor::run` (dns_thread.rs lines
130-182) on a received datagram `(bytes, src)` at time `now`: classify by
sender address; on the upstream-reply path parse, remove the pending entry,
rebuild the reply from the stored query and the upstream answers and send it
to the stored client address; on the client-query path allocate an id,
insert the pending entry, rewrite bytes 0-1 and send upstream.  Returns the
new state and the ordered list of observable events, or the Rust panic hit. -/
def step (s : DnsProcessor) (handler : Handler) (bytes : List Nat)
    (src : Addr) (now : Nat) : Except Fault (DnsProcessor × List Event) :=
  if src = s.icann_resolver then
    match parsePacket bytes with
    | none => .error .parseFailed
    | some packet =>
      let removed := mapRemove s.pending packet.id
      match removed.1 with
      | none => .ok ({ s with pending := removed.2 }, [])
      | some pq =>
        match parsePacket pq.query with
        | none => .error .parseFailed
        | some original_query =>
          let _ := handler original_query
          match original_query.questions with
          | [] => .error .noQuestion
          | _ :: _ =>
            let reply : Packet :=
              { Packet.new_reply original_query.id with
                questions := original_query.questions,
                answers := packet.answers }
            .ok ({ s with pending := removed.2 },
                 [Event.send pq.fromAddr (buildBytes reply)])
  else
    match s.next_id with
    | .error f => .error f
    | .ok (id, s1) =>
      let entry : PendingQuery :=
        { fromAddr := src, query := bytes, received_at := now, icann_id := id }
      match setIdBytes bytes id with
      | .error f => .error f
      | .ok forwarded =>
        .ok ({ s1 with pending := mapInsert s1.pending id entry },
             [Event.insert entry, Event.send s.icann_resolver forwarded])

end DnsProcessor

/-- Repeated calls of `DnsProcessor.next_id`: the ids produced by `n`
successive calls starting from state `s`, or the first fault hit. -/
def nextIdCalls : DnsProcessor → Nat → Except Fault (List Nat × DnsProcessor)
  | s, 0 => .ok ([], s)
  | s, n + 1 =>
    match s.next_id with
    | .error f => .error f
    | .ok (id, s1) =>
      match nextIdCalls s1 n with
      | .error f => .error f
      | .ok (ids, s2) => .ok (id :: ids, s2)

/-- `src/pending_queries.rs` : `ThreadSafeStore` holds an
`Arc<Mutex<HashMap<u16, PendingQuery>>>`.  The `Arc` is modeled by an
explicit heap: a store handle is the address of its allocation. -/
structure ThreadSafeStore where
  ptr : Nat
deriving DecidableEq, Repr

/-- The heap of `Arc` allocations of pending-query maps, with a
fresh-address counter. -/
structure StoreWorld where
  heap : List (Nat × List (Nat × PendingQuery))
  nextPtr : Nat
deriving DecidableEq, Repr

/-- The map held at an allocation address (empty when the address is not
allocated). -/
def heapGetL : List (Nat × List (Nat × PendingQuery)) → Nat →
    List (Nat × PendingQuery)
  | [], _ => []
  | (p', m) :: rest, p => if p' = p then m else heapGetL rest p

/-- Overwrite the map held at an allocation address. -/
def heapSetL : List (Nat × List (Nat × PendingQuery)) → Nat →
    List (Nat × PendingQuery) → List (Nat × List (Nat × PendingQuery))
  | [], p, m => [(p, m)]
  | (p', m') :: rest, p, m =>
      if p' = p then (p, m) :: rest else (p', m') :: heapSetL rest p m

/-- The map held at an allocation address of a world. -/
def heapGet (w : StoreWorld) (p : Nat) : List (Nat × PendingQuery) :=
  heapGetL w.heap p

/-- Overwrite the map at an allocation address of a world. -/
def heapSet (w : StoreWorld) (p : Nat) (m : List (Nat × PendingQuery)) :
    StoreWorld :=
  { w with heap := heapSetL w.heap p m }

namespace ThreadSafeStore

/-- `ThreadSafeStore::new`: allocate a fresh empty map and hand out a
handle to it. -/
def new (w : StoreWorld) : ThreadSafeStore × StoreWorld :=
  (⟨w.nextPtr⟩, ⟨(w.nextPtr, []) :: w.heap, w.nextPtr + 1⟩)

/-- `impl Clone for ThreadSafeStore` (pending_queries.rs lines 63-67):
`Arc::clone` — the clone is a handle to the same allocation. -/
def clone (s : ThreadSafeStore) : ThreadSafeStore := ⟨s.ptr⟩

/-- `ThreadSafeStore::insert`: lock the shared map and insert keyed by
`query.icann_id`. -/
def insert (w : StoreWorld) (s : ThreadSafeStore) (q : PendingQuery) :
    StoreWorld :=
  heapSet w s.ptr (mapInsert (heapGet w s.ptr) q.icann_id q)

/-- `ThreadSafeStore::remove`: lock the shared map and remove the entry at
the id. -/
def remove (w : StoreWorld) (s : ThreadSafeStore) (id : Nat) :
    Option PendingQuery × StoreWorld :=
  let r := mapRemove (heapGet w s.ptr) id
  (r.1, heapSet w s.ptr r.2)

end ThreadSafeStore

/-- `DnsThread::new` (dns_thread.rs lines 199-223) builds the store its
processor will use: `let pending_queries = PendingStore::new_concurrent();`
— a fresh thread-safe store is allocated for every thread, and the
`pending_queries` argument of `DnsThread::new` is ignored.
(`new_concurrent` itself is absent from `pending_queries.rs`, which only
offers `new_thread_safe`; both names denote allocating a new thread-safe
store, modeled by `ThreadSafeStore.new`.) -/
def DnsThread.newStore (w : StoreWorld) : ThreadSafeStore × StoreWorld :=
  ThreadSafeStore.new w

/-- `src/server.rs` : the state of `AnyDNS` (its own `PendingQuery` record
only adds data irrelevant to the id cursor, so the pending map reuses
`PendingQuery`). -/
structure AnyDNS where
  nextId : Nat
  icann_resolver : Addr
  pending : List (Nat × PendingQuery)
deriving DecidableEq, Repr

namespace AnyDNS

/-- `Builder::build` (server.rs lines 29-35): cursor 0, empty pending map. -/
def build (icann_resolver : Addr) : AnyDNS :=
  { nextId := 0, icann_resolver := icann_resolver, pending := [] }

/-- `AnyDNS::next_id` (server.rs lines 135-139):
`let id = self.next_id; let _ = self.next_id.wrapping_add(1); id` —
the wrapping increment is computed and discarded (bound to `_`), so the
stored cursor is unchanged and the old cursor value is returned. -/
def next_id (s : AnyDNS) : Nat × AnyDNS :=
  let id := s.nextId
  let _ := (s.nextId + 1) % 65536
  (id, s)

end AnyDNS

/-- One result of `UdpSocket::recv_from` as seen by
`DnsProcessor::recv_from`: a datagram with its sender, or an error of one
of the kinds the source distinguishes. -/
inductive SockResult where
  | recv (bytes : List Nat) (src : Addr)
  | errWouldBlock
  | errTimedOut
  | errOther
deriving DecidableEq, Repr

/-- Error results of `DnsProcessor::recv_from` and `run`:
`Error::Static("Stopped")` when the stop signal is observed at a timeout,
`Error::IO` for any other socket error. -/
inductive RunError where
  | stopped
  | ioError
deriving DecidableEq, Repr

/-- `DnsProcessor::recv_from` (dns_thread.rs lines 93-116) over a script of
socket results (`stop` is the value of the shared stop flag): loop until a
datagram arrives; on a `WouldBlock`/`TimedOut` error, return
`Err(Static("Stopped"))` when the stop flag is set, else keep looping; any
other error is returned as an IO error.  `none` models blocking forever
(the script ran out). -/
def recv_from (stop : Bool) : List SockResult →
    Option (Except RunError (List Nat × Addr))
  | [] => none
  | SockResult.recv bytes src :: _ => some (.ok (bytes, src))
  | SockResult.errWouldBlock :: rest =>
      if stop then some (.error .stopped) else recv_from stop rest
  | SockResult.errTimedOut :: rest =>
      if stop then some (.error .stopped) else recv_from stop rest
  | SockResult.errOther :: _ => some (.error .ioError)

/-- Outcome of `DnsProcessor::run`: the loop only ends by returning the
receive error (propagated by `?`) or by hitting a Rust panic. -/
inductive RunOutcome where
  | stoppedCleanly
  | ioError
  | fault (f : Fault)
deriving DecidableEq, Repr

/-- `DnsProcessor::run` (dns_thread.rs lines 128-183) over a script of
socket results: receive (honoring the stop flag at timeout boundaries),
process one datagram with `step`, repeat.  `none` models blocking forever
on an exhausted script. -/
def run (s : DnsProcessor) (handler : Handler) (stop : Bool) (now : Nat) :
    List SockResult → Option RunOutcome
  | [] => none
  | SockResult.recv bytes src :: rest =>
      match s.step handler bytes src now with
      | .error f => some (RunOutcome.fault f)
      | .ok (s1, _) => run s1 handler stop now rest
  | SockResult.errWouldBlock :: rest =>
      if stop then some RunOutcome.stoppedCleanly else run s handler stop now rest
  | SockResult.errTimedOut :: rest =>
      if stop then some RunOutcome.stoppedCleanly else run s handler stop now rest
  | SockResult.errOther :: _ => some RunOutcome.ioError

/-- The handler that declines every query, mirroring
`custom_handler.rs::EmptyHandler` (`Err("Not implemented")`); the
`dns_thread.rs` handler type carries `String` errors. -/
def declineHandler : Handler := fun _ => Except.error "Not implemented"

/-- `src/dns_thread.rs` : the state of `DnsThread` visible to the model:
the shared atomic stop flag. -/
structure DnsThread where
  stop_signal : Bool
deriving DecidableEq, Repr

/-- Actions of `DnsThread::join` in program order. -/
inductive JoinEvent where
  | setStopFlag
  | waitForThread
deriving DecidableEq, Repr

namespace DnsThread

/-- `DnsThread::stop` (dns_thread.rs lines 226-229): store `true` into the
shared stop flag. -/
def stop (t : DnsThread) : DnsThread := { t with stop_signal := true }

/-- `DnsThread::join` (dns_thread.rs lines 234-237): `self.stop();
self.handler.join();` — set the stop flag, then wait for the worker thread
to terminate; consumes the instance (takes `self` by value). -/
def join (t : DnsThread) : DnsThread × List JoinEvent :=
  (t.stop, [JoinEvent.setStopFlag, JoinEvent.waitForThread])

end DnsThread

/-! Helper lemmas about the map, heap and codec models, shared by the claim
theorems. -/

/-- Removing an absent key leaves the map unchanged. -/
lemma mapRemove_none_eq_self (m : List (Nat × PendingQuery)) (k : Nat)
    (h : (mapRemove m k).1 = none) : (mapRemove m k).2 = m := by
  induction m with
  | nil => rfl
  | cons kv rest ih =>
    obtain ⟨k', v⟩ := kv
    by_cases hk : k' = k
    · simp [mapRemove, hk] at h
    · simp [mapRemove, hk] at h ⊢
      exact ih h

/-- A freshly inserted binding is found by lookup. -/
lemma mapLookup_mapInsert_self (m : List (Nat × PendingQuery)) (k : Nat)
    (v : PendingQuery) : mapLookup (mapInsert m k v) k = some v := by
  induction m with
  | nil => simp [mapInsert, mapLookup]
  | cons kv rest ih =>
    obtain ⟨k', v'⟩ := kv
    by_cases hk : k' = k
    · simp [mapInsert, mapLookup, hk]
    · simp [mapInsert, mapLookup, hk, ih]

/-- A freshly inserted binding is returned by remove. -/
lemma mapRemove_mapInsert_self (m : List (Nat × PendingQuery)) (k : Nat)
    (v : PendingQuery) : (mapRemove (mapInsert m k v) k).1 = some v := by
  induction m with
  | nil => simp [mapInsert, mapRemove]
  | cons kv rest ih =>
    obtain ⟨k', v'⟩ := kv
    by_cases hk : k' = k
    · simp [mapInsert, mapRemove, hk]
    · simp [mapInsert, mapRemove, hk, ih]

/-- Reading back the address just written in the heap. -/
lemma heapGetL_heapSetL (hl : List (Nat × List (Nat × PendingQuery)))
    (p : Nat) (m : List (Nat × PendingQuery)) :
    heapGetL (heapSetL hl p m) p = m := by
  induction hl with
  | nil => simp [heapSetL, heapGetL]
  | cons kv rest ih =>
    obtain ⟨p', m'⟩ := kv
    by_cases hp : p' = p
    · simp [heapSetL, heapGetL, hp]
    · simp [heapSetL, heapGetL, hp, ih]

/-- The id of a parsed packet is read big-endian from byte positions 0-1. -/
lemma parseFields_id (b0 b1 b2 b3 b4 b5 b6 b7 b8 b9 b10 b11 : Nat)
    (body : List Nat) (p : Packet)
    (h : parseFields b0 b1 b2 b3 b4 b5 b6 b7 b8 b9 b10 b11 body = some p) :
    p.id = b0 * 256 + b1 := by
  unfold parseFields at h
  simp only [Option.bind_eq_some, Option.map_eq_some'] at h
  obtain ⟨q, _, an, _, ns, _, ar, _, rfl⟩ := h
  rfl

/-- The first two bytes of a parseable datagram are the big-endian digits of
its parsed transaction id. -/
lemma parsePacket_take_two (bytes : List Nat) (p : Packet)
    (h : parsePacket bytes = some p) :
    bytes.take 2 = [p.id / 256, p.id % 256] := by
  unfold parsePacket at h
  split at h
  case isFalse => simp at h
  case isTrue hall =>
    rcases bytes with _ | ⟨b0, _ | ⟨b1, _ | ⟨b2, _ | ⟨b3, _ | ⟨b4, _ | ⟨b5,
      _ | ⟨b6, _ | ⟨b7, _ | ⟨b8, _ | ⟨b9, _ | ⟨b10, _ | ⟨b11, body⟩⟩⟩⟩⟩⟩⟩⟩⟩⟩⟩⟩ <;>
      try simp at h
    have hid := parseFields_id b0 b1 b2 b3 b4 b5 b6 b7 b8 b9 b10 b11 body p h
    have hb0 : b0 < 256 := hall b0 (by simp)
    have hb1 : b1 < 256 := hall b1 (by simp)
    have h0 : p.id / 256 = b0 := by omega
    have h1 : p.id % 256 = b1 := by omega
    simp [h0, h1]

namespace DnsProcessor

/-- The client-query path of `DnsProcessor::run` in closed form: allocate
the id, insert the pending entry, rewrite bytes 0-1, send upstream. -/
lemma step_client_eq (s : DnsProcessor) (h : Handler) (b0 b1 : Nat)
    (rest : List Nat) (src : Addr) (now : Nat)
    (hsrc : ¬ src = s.icann_resolver) (hov : s.nextId + 1 < 65536) :
    s.step h (b0 :: b1 :: rest) src now =
      .ok ({ s with
               pending := mapInsert s.pending s.wrapCursor
                 ⟨src, b0 :: b1 :: rest, now, s.wrapCursor⟩,
               nextId := s.wrapCursor },
            [Event.insert ⟨src, b0 :: b1 :: rest, now, s.wrapCursor⟩,
             Event.send s.icann_resolver
               (s.wrapCursor / 256 :: s.wrapCursor % 256 :: rest)]) := by
  have hnid : s.next_id = .ok (s.wrapCursor, { s with nextId := s.wrapCursor }) := by
    unfold next_id
    rw [if_neg (by omega)]
  unfold step
  rw [if_neg hsrc, hnid]
  rfl

/-- The matched upstream-reply path of `DnsProcessor::run` in closed form:
remove the pending entry and send the rebuilt reply to the stored client. -/
lemma step_upstream_hit_eq (s : DnsProcessor) (h : Handler)
    (bytes : List Nat) (src : Addr) (now : Nat) (rp qp : Packet)
    (pq : PendingQuery) (q0 : List Nat) (qs : List (List Nat))
    (hsrc : src = s.icann_resolver)
    (hrp : parsePacket bytes = some rp)
    (hpq : (mapRemove s.pending rp.id).1 = some pq)
    (hqp : parsePacket pq.query = some qp)
    (hq : qp.questions = q0 :: qs) :
    s.step h bytes src now =
      .ok ({ s with pending := (mapRemove s.pending rp.id).2 },
           [Event.send pq.fromAddr (buildBytes
              { id := qp.id, flags := replyFlags, questions := qp.questions,
                answers := rp.answers, nameServers := [],
                additionalRecords := [] })]) := by
  subst hsrc
  unfold step
  rw [if_pos rfl, hrp]
  simp only [hpq, hqp, hq]
  rfl

/-- The orphan upstream-reply path of `DnsProcessor::run` in closed form:
no event, pending map as left by the failed remove. -/
lemma step_upstream_orphan_eq (s : DnsProcessor) (h : Handler)
    (bytes : List Nat) (src : Addr) (now : Nat) (rp : Packet)
    (hsrc : src = s.icann_resolver)
    (hrp : parsePacket bytes = some rp)
    (hpq : (mapRemove s.pending rp.id).1 = none) :
    s.step h bytes src now =
      .ok ({ s with pending := (mapRemove s.pending rp.id).2 }, []) := by
  subst hsrc
  unfold step
  rw [if_pos rfl, hrp]
  simp only [hpq]

end DnsProcessor

/-! Concrete fixtures used by counterexamples and witnesses. -/

/-- A client query datagram: id 0x1234, flags 0x0100, one question blob. -/
def exQuery : List Nat := [18, 52, 1, 0, 0, 1, 0, 0, 0, 0, 0, 0, 1, 7]

/-- A pending entry for client 9 storing `exQuery` under upstream id 5. -/
def exEntry : PendingQuery :=
  { fromAddr := 9, query := exQuery, received_at := 0, icann_id := 5 }

/-- A processor (upstream resolver address 1) with the entry for id 5
pending. -/
def exPendingState : DnsProcessor :=
  { DnsProcessor.new 1 with pending := [(5, exEntry)] }

/-- An upstream reply datagram: id 5, flags 0x8180, one question, one
answer, one authority record. -/
def exUpstream : List Nat :=
  [0, 5, 129, 128, 0, 1, 0, 1, 0, 1, 0, 0, 1, 7, 1, 3, 1, 4]

/-- The parsed form of `exUpstream`. -/
def exUpstreamPacket : Packet :=
  { id := 5, flags := 33152, questions := [[7]], answers := [[3]],
    nameServers := [[4]], additionalRecords := [] }

/-- The parsed form of `exQuery`. -/
def exQueryPacket : Packet :=
  { id := 4660, flags := 256, questions := [[7]], answers := [],
    nameServers := [], additionalRecords := [] }

/-! The claims. -/

/-- Claim C1, counterexample.  The claim says a client-query datagram is
first offered to the custom handler and, when the handler returns a reply,
that reply is sent to the client with no upstream send and no pending
entry.  In `DnsProcessor::run` the client branch never consults the
handler: here the handler returns a reply (`Ok`) for every packet, yet the
engine emits an upstream send (to the resolver address 1), creates the
pending entry for id 1, and sends nothing to the client at address 2. -/
theorem C1_counterexample :
    DnsProcessor.step (DnsProcessor.new 1) (fun p => Except.ok p) exQuery 2 0 =
      .ok ({ DnsProcessor.new 1 with
               pending := [(1, ⟨2, exQuery, 0, 1⟩)], nextId := 1 },
           [Event.insert ⟨2, exQuery, 0, 1⟩,
            Event.send 1 [0, 1, 1, 0, 0, 1, 0, 0, 0, 0, 0, 0, 1, 7]]) ∧
    (DnsProcessor.new 1).icann_resolver = 1 ∧
    (2 : Addr) ≠ (DnsProcessor.new 1).icann_resolver := by
  decide

/-- Claim C1, amended.  For every client-query datagram (sender not the
upstream resolver), the packet processor does not consult the custom
handler: the step result is identical for any two handlers, and it always
takes the forward path — allocate an id, insert the pending entry, rewrite
bytes 0-1, send to the upstream resolver.  (The handler is only invoked on
the upstream-reply path, with its result discarded.) -/
theorem C1_client_path_ignores_handler (s : DnsProcessor) (h h2 : Handler)
    (b0 b1 : Nat) (rest : List Nat) (src : Addr) (now : Nat)
    (hsrc : ¬ src = s.icann_resolver) (hov : s.nextId + 1 < 65536) :
    s.step h (b0 :: b1 :: rest) src now = s.step h2 (b0 :: b1 :: rest) src now ∧
    s.step h (b0 :: b1 :: rest) src now =
      .ok ({ s with
               pending := mapInsert s.pending s.wrapCursor
                 ⟨src, b0 :: b1 :: rest, now, s.wrapCursor⟩,
               nextId := s.wrapCursor },
            [Event.insert ⟨src, b0 :: b1 :: rest, now, s.wrapCursor⟩,
             Event.send s.icann_resolver
               (s.wrapCursor / 256 :: s.wrapCursor % 256 :: rest)]) := by
  have e1 := DnsProcessor.step_client_eq s h b0 b1 rest src now hsrc hov
  have e2 := DnsProcessor.step_client_eq s h2 b0 b1 rest src now hsrc hov
  exact ⟨e1.trans e2.symm, e1⟩

/-- Claim C1, amended theorem witness at a concrete client query. -/
theorem C1_client_path_ignores_handler_witness :
    DnsProcessor.step (DnsProcessor.new 1) (fun p => Except.ok p) exQuery 2 0 =
      DnsProcessor.step (DnsProcessor.new 1) declineHandler exQuery 2 0 :=
  (C1_client_path_ignores_handler (DnsProcessor.new 1) (fun p => Except.ok p)
    declineHandler 18 52 [1, 0, 0, 1, 0, 0, 0, 0, 0, 0, 1, 7] 2 0
    (by decide) (by decide)).1

/-- Claim C2, counterexample.  Two workers built the way `DnsThread::new`
builds them (`PendingStore::new_concurrent()` — a fresh store allocation
per thread, ignoring the shared-table argument) hold handles to distinct
allocations; an entry inserted through the first worker's handle is not
found by `remove` through the second worker's handle. -/
theorem C2_counterexample :
    (DnsThread.newStore ⟨[], 0⟩).1 ≠
      (DnsThread.newStore (DnsThread.newStore ⟨[], 0⟩).2).1 ∧
    (ThreadSafeStore.remove
       (ThreadSafeStore.insert (DnsThread.newStore (DnsThread.newStore ⟨[], 0⟩).2).2
          (DnsThread.newStore ⟨[], 0⟩).1 exEntry)
       (DnsThread.newStore (DnsThread.newStore ⟨[], 0⟩).2).1
       exEntry.icann_id).1 = none := by
  decide

/-- Claim C2, amended.  Cloning a `ThreadSafeStore` handle does yield a
reference to the same underlying map — an entry inserted through a handle
is found and returned by `remove` through its clone — but `DnsThread::new`
does not share the table across workers: it allocates a fresh store for
every worker (the first conjunct), so the sharing the claim asserts fails
between workers (see the counterexample). -/
theorem C2_clone_shares_but_workers_do_not (w w2 : StoreWorld)
    (s : ThreadSafeStore) (q : PendingQuery) :
    (ThreadSafeStore.remove (ThreadSafeStore.insert w s q)
        (ThreadSafeStore.clone s) q.icann_id).1 = some q ∧
    (DnsThread.newStore w2).1 ≠ (DnsThread.newStore (DnsThread.newStore w2).2).1 := by
  constructor
  · simp [ThreadSafeStore.remove, ThreadSafeStore.insert, ThreadSafeStore.clone,
      heapGet, heapSet, heapGetL_heapSetL, mapRemove_mapInsert_self]
  · simp only [DnsThread.newStore, ThreadSafeStore.new, ne_eq,
      ThreadSafeStore.mk.injEq]
    omega

/-- Claim C3.  End-to-end transaction-id transparency: starting from any
state, process a client query `Q` (forwarded upstream under a fresh id),
then process an upstream reply carrying that id; the reply datagram sent
back to the client has its first two bytes equal to the first two bytes of
`Q`. -/
theorem C3_id_transparency (s : DnsProcessor) (h : Handler) (b0 b1 : Nat)
    (qrest R : List Nat) (c : Addr) (n1 n2 : Nat) (rp qp : Packet)
    (hc : ¬ c = s.icann_resolver)
    (hov : s.nextId + 1 < 65536)
    (hrp : parsePacket R = some rp)
    (hid : rp.id = s.wrapCursor)
    (hqp : parsePacket (b0 :: b1 :: qrest) = some qp)
    (hq : qp.questions ≠ []) :
    ∃ s1 ev1 s2 reply,
      s.step h (b0 :: b1 :: qrest) c n1 = .ok (s1, ev1) ∧
      s1.step h R s.icann_resolver n2 = .ok (s2, [Event.send c reply]) ∧
      reply.take 2 = (b0 :: b1 :: qrest).take 2 := by
  obtain ⟨q0, qs, hq'⟩ : ∃ q0 qs, qp.questions = q0 :: qs := by
    cases hqq : qp.questions with
    | nil => exact absurd hqq hq
    | cons a l => exact ⟨a, l, rfl⟩
  have h1 := DnsProcessor.step_client_eq s h b0 b1 qrest c n1 hc hov
  have h2 := DnsProcessor.step_upstream_hit_eq
    { s with
        pending := mapInsert s.pending s.wrapCursor
          ⟨c, b0 :: b1 :: qrest, n1, s.wrapCursor⟩,
        nextId := s.wrapCursor }
    h R s.icann_resolver n2 rp qp ⟨c, b0 :: b1 :: qrest, n1, s.wrapCursor⟩
    q0 qs rfl hrp (by rw [hid]; exact mapRemove_mapInsert_self _ _ _) hqp hq'
  refine ⟨_, _, _, _, h1, h2, ?_⟩
  have ht := parsePacket_take_two (b0 :: b1 :: qrest) qp hqp
  rw [ht]
  rfl

/-- Claim C3 witness: the concrete scenario — client 2 sends the query with
id 0x1234, the engine forwards it under id 1, the upstream reply with id 1
comes back, and the reply sent to client 2 starts with bytes 18, 52. -/
theorem C3_id_transparency_witness :
    ∃ s1 ev1 s2 reply,
      DnsProcessor.step (DnsProcessor.new 1) declineHandler
          (18 :: 52 :: [1, 0, 0, 1, 0, 0, 0, 0, 0, 0, 1, 7]) 2 0 = .ok (s1, ev1) ∧
      s1.step declineHandler
          [0, 1, 129, 128, 0, 1, 0, 1, 0, 0, 0, 0, 1, 7, 1, 3]
          (DnsProcessor.new 1).icann_resolver 0 = .ok (s2, [Event.send 2 reply]) ∧
      reply.take 2 =
        (18 :: 52 :: [1, 0, 0, 1, 0, 0, 0, 0, 0, 0, 1, 7]).take 2 :=
  C3_id_transparency (DnsProcessor.new 1) declineHandler 18 52
    [1, 0, 0, 1, 0, 0, 0, 0, 0, 0, 1, 7]
    [0, 1, 129, 128, 0, 1, 0, 1, 0, 0, 0, 0, 1, 7, 1, 3] 2 0 0
    { id := 1, flags := 33152, questions := [[7]], answers := [[3]],
      nameServers := [], additionalRecords := [] }
    exQueryPacket (by decide) (by decide) (by decide) (by decide) (by decide)
    (by decide)

/-- Claim C4, counterexample.  The upstream reply `exUpstream` (which
carries one authority record and flags 0x8180) is matched to the pending
entry for client 9; the datagram actually sent to the client is a freshly
built reply and differs from the claimed byte-verbatim relay (the upstream
bytes with positions 0-1 replaced by the client's id 0x1234): the flags,
the authority record and even the length are not preserved. -/
theorem C4_counterexample :
    DnsProcessor.step exPendingState declineHandler exUpstream 1 0 =
      .ok ({ exPendingState with pending := [] },
           [Event.send 9 [18, 52, 128, 0, 0, 1, 0, 1, 0, 0, 0, 0, 1, 7, 1, 3]]) ∧
    DnsProcessor.setIdBytes exUpstream 4660 =
      .ok [18, 52, 129, 128, 0, 1, 0, 1, 0, 1, 0, 0, 1, 7, 1, 3, 1, 4] ∧
    [18, 52, 128, 0, 0, 1, 0, 1, 0, 0, 0, 0, 1, 7, 1, 3] ≠
      [18, 52, 129, 128, 0, 1, 0, 1, 0, 1, 0, 0, 1, 7, 1, 3, 1, 4] := by
  decide

/-- Claim C4, amended.  For every upstream-reply datagram matched to a
pending entry, the engine does not relay the upstream bytes: it sends a
freshly built reply whose id is the stored original query's id, whose
question section is the original query's questions, whose answer section is
the upstream reply's answers, and whose authority and additional sections
are empty; the upstream flags are replaced by the fresh-reply flags. -/
theorem C4_reply_is_rebuilt (s : DnsProcessor) (h : Handler)
    (bytes : List Nat) (now : Nat) (rp qp : Packet) (pq : PendingQuery)
    (q0 : List Nat) (qs : List (List Nat))
    (hrp : parsePacket bytes = some rp)
    (hpq : (mapRemove s.pending rp.id).1 = some pq)
    (hqp : parsePacket pq.query = some qp)
    (hq : qp.questions = q0 :: qs) :
    s.step h bytes s.icann_resolver now =
      .ok ({ s with pending := (mapRemove s.pending rp.id).2 },
           [Event.send pq.fromAddr (buildBytes
              { id := qp.id, flags := replyFlags, questions := qp.questions,
                answers := rp.answers, nameServers := [],
                additionalRecords := [] })]) :=
  DnsProcessor.step_upstream_hit_eq s h bytes s.icann_resolver now rp qp pq
    q0 qs rfl hrp hpq hqp hq

/-- Claim C4, amended theorem witness at the concrete upstream reply. -/
theorem C4_reply_is_rebuilt_witness :
    DnsProcessor.step exPendingState declineHandler exUpstream
        exPendingState.icann_resolver 0 =
      .ok ({ exPendingState with pending := [] },
           [Event.send 9 [18, 52, 128, 0, 0, 1, 0, 1, 0, 0, 0, 0, 1, 7, 1, 3]]) := by
  have h := C4_reply_is_rebuilt exPendingState declineHandler exUpstream 0
    exUpstreamPacket exQueryPacket exEntry [7] []
    (by decide) (by decide) (by decide) (by decide)
  exact h

/-- Claim C5 (code bug).  `AnyDNS::next_id` computes
`self.next_id.wrapping_add(1)` but binds it to `_`, so the newly produced
value is never stored: the cursor never advances and every call returns the
same value.  Evaluated at the failing input (a freshly built server,
cursor 0): two successive calls both return 0 and leave the state
unchanged, contradicting the claim that successive calls differ. -/
theorem C5_cursor_never_advances :
    (∀ s : AnyDNS, (AnyDNS.next_id s).2 = s ∧ (AnyDNS.next_id s).1 = s.nextId) ∧
    ((AnyDNS.build 0).next_id).1 = 0 ∧
    (((AnyDNS.build 0).next_id).2.next_id).1 = 0 ∧
    ((AnyDNS.build 0).next_id).1 = (((AnyDNS.build 0).next_id).2.next_id).1 := by
  exact ⟨fun s => ⟨rfl, rfl⟩, rfl, rfl, rfl⟩

/-- Claim C6, counterexample.  A worker with range `[100, 103)` and cursor
100 (`DnsProcessor::new_threadsafe` starts the cursor at `start`): four
successive `next_id` calls return 101, 102, 103, 100 — not the
101, 102, 100, 101 the claim states, because the wrap guard `id > end` is
inclusive and lets `end` itself be issued. -/
theorem C6_counterexample :
    (nextIdCalls (DnsProcessor.new_threadsafe 1 100 103) 4).map Prod.fst =
      .ok [101, 102, 103, 100] ∧
    (nextIdCalls (DnsProcessor.new_threadsafe 1 100 103) 4).map Prod.fst ≠
      .ok [101, 102, 100, 101] := by
  decide

/-- Claim C6, amended.  For a single worker whose IdRange is `[100, 103)`
with the cursor initialized to 100, four successive calls to `next_id`
return 101, 102, 103, 100 in that order: the cursor pre-increments and
wraps to `start` only when it exceeds `end`, so `end` itself is issued
before the wrap. -/
theorem C6_wrap_sequence :
    (nextIdCalls (DnsProcessor.new_threadsafe 1 100 103) 4).map Prod.fst =
      .ok [101, 102, 103, 100] := by
  decide

/-- Claim C7.  On the forward path (client query), the pending entry is
inserted strictly before the rewritten datagram is sent upstream: the
emitted event trace is exactly the insert followed by the upstream send,
and the table from the insert on (unchanged by the send) contains the
entry under the allocated id, which stores the client datagram verbatim. -/
theorem C7_insert_precedes_send (s : DnsProcessor) (h : Handler)
    (b0 b1 : Nat) (rest : List Nat) (src : Addr) (now : Nat)
    (hsrc : ¬ src = s.icann_resolver) (hov : s.nextId + 1 < 65536) :
    ∃ st entry fwd,
      s.step h (b0 :: b1 :: rest) src now =
        .ok (st, [Event.insert entry, Event.send s.icann_resolver fwd]) ∧
      mapLookup st.pending entry.icann_id = some entry ∧
      entry.query = b0 :: b1 :: rest := by
  refine ⟨_, ⟨src, b0 :: b1 :: rest, now, s.wrapCursor⟩, _,
    DnsProcessor.step_client_eq s h b0 b1 rest src now hsrc hov, ?_, rfl⟩
  exact mapLookup_mapInsert_self _ _ _

/-- Claim C7 witness at a concrete client query. -/
theorem C7_insert_precedes_send_witness :
    ∃ st entry fwd,
      DnsProcessor.step (DnsProcessor.new 1) declineHandler
          (18 :: 52 :: [1, 0, 0, 1, 0, 0, 0, 0, 0, 0, 1, 7]) 2 0 =
        .ok (st, [Event.insert entry,
                  Event.send (DnsProcessor.new 1).icann_resolver fwd]) ∧
      mapLookup st.pending entry.icann_id = some entry ∧
      entry.query = 18 :: 52 :: [1, 0, 0, 1, 0, 0, 0, 0, 0, 0, 1, 7] :=
  C7_insert_precedes_send (DnsProcessor.new 1) declineHandler 18 52
    [1, 0, 0, 1, 0, 0, 0, 0, 0, 0, 1, 7] 2 0 (by decide) (by decide)

/-- Claim C8, counterexample.  The claim says processing an upstream
datagram is never fatal, including when its bytes do not parse as a DNS
message; but `DnsProcessor::run` calls `Packet::parse(query).unwrap()` on
the upstream path, so the one-byte datagram `[0]` arriving from the
upstream resolver's address panics the worker (a parse fault), which is
fatal. -/
theorem C8_counterexample :
    DnsProcessor.step exPendingState declineHandler [0]
      exPendingState.icann_resolver 0 = .error Fault.parseFailed := by
  decide

/-- Claim C8, amended.  For every parseable datagram arriving from the
upstream resolver's address whose transaction id has no pending entry, the
engine drops the datagram: the step succeeds (the worker loop continues),
no event is emitted (no send), and the state — in particular the pending
table — is exactly unchanged.  (An upstream datagram that fails DNS
parsing instead panics the worker; see the counterexample.) -/
theorem C8_orphan_dropped (s : DnsProcessor) (h : Handler)
    (bytes : List Nat) (src : Addr) (now : Nat) (rp : Packet)
    (hsrc : src = s.icann_resolver)
    (hrp : parsePacket bytes = some rp)
    (hpq : (mapRemove s.pending rp.id).1 = none) :
    s.step h bytes src now = .ok (s, []) := by
  have h1 := DnsProcessor.step_upstream_orphan_eq s h bytes src now rp hsrc hrp hpq
  rw [h1, mapRemove_none_eq_self _ _ hpq]

/-- Claim C8, amended theorem witness: the spec's own scenario — an orphan
upstream reply with id 0xBEEF (48879) is dropped, leaving the state
unchanged. -/
theorem C8_orphan_dropped_witness :
    DnsProcessor.step exPendingState declineHandler
        [190, 239, 128, 0, 0, 0, 0, 0, 0, 0, 0, 0]
        exPendingState.icann_resolver 0 = .ok (exPendingState, []) :=
  C8_orphan_dropped exPendingState declineHandler
    [190, 239, 128, 0, 0, 0, 0, 0, 0, 0, 0, 0] exPendingState.icann_resolver 0
    { id := 48879, flags := 32768, questions := [], answers := [],
      nameServers := [], additionalRecords := [] }
    rfl (by decide) (by decide)

/-- Claim C9.  `DnsThread::join` first sets the stop flag and then waits
for the worker thread, in that order (and consumes the instance — in the
source it takes `self` by value); once the stop flag is set, the worker's
receive loop returns `Err(Static("Stopped"))` at the very next
read-timeout boundary instead of continuing to loop, and the `run` loop
terminates cleanly there (the error is propagated by `?`). -/
theorem C9_stop_and_join (t : DnsThread) (s : DnsProcessor) (h : Handler)
    (now : Nat) (rest : List SockResult) :
    (t.join).2 = [JoinEvent.setStopFlag, JoinEvent.waitForThread] ∧
    (t.join).1.stop_signal = true ∧
    recv_from true (SockResult.errTimedOut :: rest) =
      some (.error RunError.stopped) ∧
    run s h true now (SockResult.errTimedOut :: rest) =
      some RunOutcome.stoppedCleanly := by
  exact ⟨rfl, rfl, rfl, rfl⟩

/-- Claim C10.  With the default id range of `DnsProcessor::new`
(`0..u16::MAX`, so `id_range.end = 65535`), the wrap branch of `next_id` is
unreachable: the guard `id > id_range.end` is false for every u16 value,
so as long as the increment does not overflow the call returns the plain
increment (never the range start), and once the cursor reaches 65535 the
u16 expression `self.next_id + 1` overflows (a debug-mode panic). -/
theorem C10_wrap_unreachable (icann : Addr) (cursor : Nat) :
    (∀ id : Nat, id ≤ 65535 → ¬ (id > (DnsProcessor.new icann).idRangeEnd)) ∧
    (cursor < 65535 →
      ({ DnsProcessor.new icann with nextId := cursor } : DnsProcessor).next_id =
        .ok (cursor + 1,
             { DnsProcessor.new icann with nextId := cursor + 1 })) ∧
    (cursor = 65535 →
      ({ DnsProcessor.new icann with nextId := cursor } : DnsProcessor).next_id =
        .error Fault.idOverflow) := by
  refine ⟨?_, ?_, ?_⟩
  · intro id hid
    simp only [DnsProcessor.new]
    omega
  · intro hlt
    show DnsProcessor.next_id ⟨[], icann, cursor, 0, 65535⟩ =
      .ok (cursor + 1, ⟨[], icann, cursor + 1, 0, 65535⟩)
    unfold DnsProcessor.next_id DnsProcessor.wrapCursor
    rw [if_neg (show ¬ cursor + 1 ≥ 65536 by omega)]
    rw [if_neg (show ¬ cursor + 1 > 65535 by omega)]
  · intro heq
    subst heq
    rfl

/-- Claim C10 witness: at cursor 3 the call returns 4 without wrapping; at
cursor 65535 it overflows. -/
theorem C10_wrap_unreachable_witness :
    (3 < 65535 ∧
      ({ DnsProcessor.new 0 with nextId := 3 } : DnsProcessor).next_id =
        .ok (4, { DnsProcessor.new 0 with nextId := 4 })) ∧
    ({ DnsProcessor.new 0 with nextId := 65535 } : DnsProcessor).next_id =
      .error Fault.idOverflow :=
  ⟨⟨by decide, (C10_wrap_unreachable 0 3).2.1 (by decide)⟩,
   (C10_wrap_unreachable 0 65535).2.2 rfl⟩

end AnyDns
